import Mathlib

/-!
Verification of the synthetic RSD dataset generator
(`src/Data Set/generate_rsd_dataset.py`).

The generator is a single linear pipeline of statistical sampling and
formula evaluation over a table of independent records.  We embed the
per-record formulas as pure functions over `ℚ` (numpy float arithmetic
is modelled by exact rational arithmetic), with every random draw made
an explicit argument: `np.random.normal`, `np.random.rand`,
`np.random.random` draws become free rational parameters, Bernoulli
draws become `Bool` parameters, and the review-subset draw
(`np.random.choice(df.index, size=k, replace=False)`) becomes an
arbitrary `Finset ℕ` of the drawn size.
-/

/-- Embeds `np.clip(x, lo, hi)`: values below `lo` become `lo`, values
above `hi` become `hi`. -/
def np_clip (x lo hi : ℚ) : ℚ := min (max x lo) hi

/-- Embeds `language_map = ⦃"None": -0.20, "Basic": -0.10,
"Intermediate": 0.0, "Advanced": +0.05, "Fluent": +0.10⦄` (keys cover the
sampled `language_levels` enumeration; `.map` is applied only to them). -/
def language_map (s : String) : ℚ :=
  if s = "None" then -0.20
  else if s = "Basic" then -0.10
  else if s = "Intermediate" then 0.0
  else if s = "Advanced" then 0.05
  else if s = "Fluent" then 0.10
  else 0

/-- Embeds `edu_map = ⦃"None": -0.10, "Primary": 0.0, "Secondary": +0.05,
"Tertiary": +0.10⦄`. -/
def edu_map (s : String) : ℚ :=
  if s = "None" then -0.10
  else if s = "Primary" then 0.0
  else if s = "Secondary" then 0.05
  else if s = "Tertiary" then 0.10
  else 0

/-- Embeds `trauma_penalty = np.where(df["reported_trauma"], -0.08, 0.0)`. -/
def trauma_penalty (reported_trauma : Bool) : ℚ :=
  if reported_trauma then -0.08 else 0.0

/-- Embeds `df["credibility_score"] = np.clip(base_cred + lang_effect +
edu_effect + trauma_penalty, 0.0, 1.0)`; `base_cred` is the record's
`np.random.normal(0.65, 0.15)` draw. -/
def credibility_score (base_cred : ℚ) (language_proficiency education_level : String)
    (reported_trauma : Bool) : ℚ :=
  np_clip (base_cred + language_map language_proficiency + edu_map education_level
    + trauma_penalty reported_trauma) 0.0 1.0

/-- Embeds `risk_means = ⦃"Syria": 0.85, "Afghanistan": 0.80, "Sudan": 0.75,
"Myanmar": 0.70, "Eritrea": 0.70, "Venezuela": 0.55, "Iraq": 0.65,
"Somalia": 0.78⦄`. -/
def risk_means (c : String) : ℚ :=
  if c = "Syria" then 0.85
  else if c = "Afghanistan" then 0.80
  else if c = "Sudan" then 0.75
  else if c = "Myanmar" then 0.70
  else if c = "Eritrea" then 0.70
  else if c = "Venezuela" then 0.55
  else if c = "Iraq" then 0.65
  else if c = "Somalia" then 0.78
  else 0

/-- Embeds `ptype_map = ⦃"violence": +0.10, "detention": +0.05,
"threats": 0.0, "sexual_violence": +0.15, "discrimination": -0.05⦄`. -/
def ptype_map (p : String) : ℚ :=
  if p = "violence" then 0.10
  else if p = "detention" then 0.05
  else if p = "threats" then 0.0
  else if p = "sexual_violence" then 0.15
  else if p = "discrimination" then -0.05
  else 0

/-- Embeds `gender_map = ⦃"Male": 0.0, "Female": +0.08, "Non-binary": +0.06⦄`. -/
def gender_map (g : String) : ℚ :=
  if g = "Male" then 0.0
  else if g = "Female" then 0.08
  else if g = "Non-binary" then 0.06
  else 0

/-- Embeds `raw_risk = base_risk + ptype_effect + gender_effect + noise`;
`noise` is the record's `np.random.normal(0, 0.05)` draw. -/
def raw_risk (country ptype gender : String) (noise : ℚ) : ℚ :=
  risk_means country + ptype_map ptype + gender_map gender + noise

/-- Embeds `df["risk_score"] = np.clip(raw_risk, 0.0, 1.0)`. -/
def risk_score (country ptype gender : String) (noise : ℚ) : ℚ :=
  np_clip (raw_risk country ptype gender noise) 0.0 1.0

/-- Embeds `df["risk_score_uncapped"] = raw_risk` (retained unclipped). -/
def risk_score_uncapped (country ptype gender : String) (noise : ℚ) : ℚ :=
  raw_risk country ptype gender noise

/-- Embeds `df["state_protection_score"] =
np.clip(np.random.normal(0.3, 0.15, n), 0.05, 1.0)`; the argument is the
record's normal draw. -/
def state_protection_score (draw : ℚ) : ℚ := np_clip draw 0.05 1.0

/-- Embeds `df["integration_score"] = np.clip(0.4*credibility_score +
0.2*(1 - abs(age - 35)/35) + 0.4*np.random.random(n), 0.0, 1.0)`; `u` is
the record's uniform draw. -/
def integration_score (credibility : ℚ) (age : ℤ) (u : ℚ) : ℚ :=
  np_clip (0.4 * credibility + 0.2 * (1 - |(age : ℚ) - 35| / 35) + 0.4 * u) 0.0 1.0

/-- Embeds the first `np.where` stage of the trauma rate:
`np.where(country.isin(["Syria", "Afghanistan", "Eritrea", "Somalia"]), 0.65, 0.40)`. -/
def trauma_base_country (country : String) : ℚ :=
  if country ∈ ["Syria", "Afghanistan", "Eritrea", "Somalia"] then 0.65 else 0.40

/-- Embeds the second `np.where` stage:
`np.where(ptype.isin(["sexual_violence", "detention"]),
np.minimum(trauma_base + 0.15, 0.85), trauma_base)`.
`df["reported_trauma"]` is a Bernoulli draw at this rate. -/
def trauma_base (country ptype : String) : ℚ :=
  if ptype ∈ ["sexual_violence", "detention"] then
    min (trauma_base_country country + 0.15) 0.85
  else trauma_base_country country

/-- One row of the generated table: the fields of the script's `df` up to
the scoring stage (the `column_order` prefix before `AI_decision`). -/
structure Record where
  id : ℤ
  country_of_origin : String
  gender : String
  age : ℤ
  education_level : String
  language_proficiency : String
  family_size : ℤ
  prior_camp_years : ℤ
  persecution_ground : String
  persecution_type : String
  nexus_established : Bool
  state_protection_score : ℚ
  internal_relocation_possible : Bool
  reported_trauma : Bool
  credibility_score : ℚ
  risk_score : ℚ
  risk_score_uncapped : ℚ
  integration_score : ℚ
  deriving Repr, DecidableEq

/-- Embeds `approve_score = 0.45*risk_score + 0.30*credibility_score +
0.15*nexus_established.astype(float) + 0.10*(1 - state_protection_score)`. -/
def approve_score (r : Record) : ℚ :=
  0.45 * r.risk_score + 0.30 * r.credibility_score
    + 0.15 * (if r.nexus_established then (1 : ℚ) else 0)
    + 0.10 * (1 - r.state_protection_score)

/-- Embeds `df["AI_decision"] = np.where((approve_score > 0.62) &
(credibility_score > 0.50) & (nexus_established == True), "approve", "deny")`. -/
def AI_decision (r : Record) : String :=
  if approve_score r > 0.62 ∧ r.credibility_score > 0.50 ∧ r.nexus_established = true
  then "approve" else "deny"

/-- Embeds `reviewed_idx = np.random.choice(df.index, size=int(0.10 * n),
replace=False)`: the drawn size.  `int` truncates toward zero, which for
the nonnegative values arising here equals the floor. -/
def review_size (n : ℕ) : ℕ := (⌊(0.10 : ℚ) * n⌋).toNat

/-- Embeds `df["human_reviewed"] = False` followed by
`df.loc[reviewed_idx, "human_reviewed"] = True`: row `i` is reviewed iff
its index was drawn into `reviewed_idx`. -/
def human_reviewed (reviewed_idx : Finset ℕ) (i : ℕ) : Bool :=
  decide (i ∈ reviewed_idx)

/-- Number of rows of the table with `human_reviewed = True`. -/
def reviewed_count (n : ℕ) (reviewed_idx : Finset ℕ) : ℕ :=
  ((Finset.range n).filter (fun i => human_reviewed reviewed_idx i = true)).card

/-- Embeds `flip_mask = (df["human_reviewed"]) & (np.random.rand(n) < 0.50)`
and `df["human_override"] = False` with `df.loc[flip_mask, "human_override"]
= True`; `flip_u i` is row `i` entry of the `np.random.rand(n)` draw. -/
def human_override (reviewed_idx : Finset ℕ) (flip_u : ℕ → ℚ) (i : ℕ) : Bool :=
  human_reviewed reviewed_idx i && decide (flip_u i < 0.50)

/-- Embeds `df["final_decision"] = df["AI_decision"].copy()` followed by,
on the overridden rows, `lambda x: "deny" if x == "approve" else "approve"`. -/
def final_decision (ai_decision : String) (is_override : Bool) : String :=
  if is_override then (if ai_decision = "approve" then "deny" else "approve")
  else ai_decision

/-- Embeds the per-row appeal outcome loop: `"N/A"` when the row is not
appealed, else `"overturned"` when `np.random.rand() < 0.40` (that draw is
the argument `u`), else `"upheld"`. -/
def appeal_outcome (appealed : Bool) (u : ℚ) : String :=
  if !appealed then "N/A"
  else if u < 0.40 then "overturned"
  else "upheld"

/-- Embeds the per-row bias-audit branch selecting the weight set of the
`np.random.choice(["none", "moderate", "severe"], p=...)` draw, in the
source's order: trauma with low credibility first, then established nexus
with a final denial, else the default weights. -/
def bias_probs (reported_trauma : Bool) (credibility : ℚ) (nexus : Bool)
    (final : String) : ℚ × ℚ × ℚ :=
  if reported_trauma = true ∧ credibility < 0.5 then (0.40, 0.40, 0.20)
  else if nexus = true ∧ final = "deny" then (0.50, 0.35, 0.15)
  else (0.80, 0.15, 0.05)

/-- Embeds the top-level script parameterized by the record count `n` (the
source fixes `n = 500`); `record_at i` is row `i` of the table, the
per-record pipeline being pure given the random draws.  The script has no
explicit validation: for a negative `n`, the very first sampling call,
`np.random.choice(countries, n)` inside the `pd.DataFrame` construction,
raises `ValueError: negative dimensions are not allowed` — before any
record is produced or any output is written — and that library rejection
is the script's only failure point; it is modelled by the error branch. -/
def generate_rsd_dataset (n : ℤ) (record_at : ℕ → Record) : Except String (List Record) :=
  if n < 0 then Except.error "ValueError: negative dimensions are not allowed"
  else Except.ok ((List.range n.toNat).map record_at)

/-- A concrete record the decision rule approves: high risk and
credibility, established nexus, minimal state protection. -/
def sampleApprove : Record :=
  ⟨1, "Syria", "Female", 30, "Tertiary", "Fluent", 2, 1, "religion", "violence",
   true, 0.05, false, false, 0.8, 0.9, 0.9, 0.5⟩

/-- A record agreeing with `sampleApprove` on exactly the four fields the
decision rule reads (`risk_score`, `credibility_score`, `nexus_established`,
`state_protection_score`) and differing everywhere else. -/
def sampleApprove2 : Record :=
  ⟨2, "Iraq", "Male", 50, "None", "None", 6, 9, "race", "discrimination",
   true, 0.05, true, true, 0.8, 0.9, 1.1, 0.9⟩

/-- A concrete record the decision rule denies (no nexus). -/
def sampleDeny : Record :=
  ⟨3, "Sudan", "Male", 40, "Primary", "Basic", 3, 4, "race", "threats",
   false, 0.3, true, true, 0.4, 0.7, 0.7, 0.3⟩

/-- A constant row function, used to instantiate `generate_rsd_dataset`. -/
def constRecord : ℕ → Record := fun _ => sampleDeny

/-- An all-zero draw sequence, used to instantiate the `np.random.rand(n)`
vector. -/
def zero_draws : ℕ → ℚ := fun _ => 0

theorem np_clip_mem (x lo hi : ℚ) (h : lo ≤ hi) :
    lo ≤ np_clip x lo hi ∧ np_clip x lo hi ≤ hi :=
  ⟨le_min (le_max_right x lo) h, min_le_right _ _⟩

theorem np_clip_mem01 (x : ℚ) : 0 ≤ np_clip x 0.0 1.0 ∧ np_clip x 0.0 1.0 ≤ 1 := by
  unfold np_clip
  constructor
  · exact le_min (le_trans (by norm_num) (le_max_right x 0.0)) (by norm_num)
  · exact le_trans (min_le_right _ _) (by norm_num)

theorem AI_decision_two_valued (r : Record) :
    AI_decision r = "approve" ∨ AI_decision r = "deny" := by
  unfold AI_decision
  split
  · exact Or.inl rfl
  · exact Or.inr rfl

/-- C1: AI_decision = "approve" iff approve_score > 0.62 and
credibility_score > 0.50 and nexus_established, where approve_score is the
stated weighted sum of the four already-computed fields; otherwise "deny". -/
theorem AI_decision_rule (r : Record) :
    (AI_decision r = "approve" ↔
      (0.45 * r.risk_score + 0.30 * r.credibility_score
        + 0.15 * (if r.nexus_established then (1 : ℚ) else 0)
        + 0.10 * (1 - r.state_protection_score) > 0.62
        ∧ r.credibility_score > 0.50 ∧ r.nexus_established = true))
    ∧ (AI_decision r = "approve" ∨ AI_decision r = "deny") := by
  constructor
  · unfold AI_decision approve_score
    split
    · simp_all
    · simp_all
  · unfold AI_decision
    split
    · exact Or.inl rfl
    · exact Or.inr rfl

/-- C2: final_decision equals AI_decision when human_override is false, and
equals the logical complement of AI_decision (approve versus deny swapped)
when human_override is true; the override only flips, it never assigns a
decision independently of AI_decision. -/
theorem final_decision_override (r : Record) (ov : Bool) :
    (ov = false → final_decision (AI_decision r) ov = AI_decision r)
    ∧ (ov = true →
        ((AI_decision r = "approve" ∧ final_decision (AI_decision r) ov = "deny")
          ∨ (AI_decision r = "deny" ∧ final_decision (AI_decision r) ov = "approve"))) := by
  constructor
  · intro h
    subst h
    simp [final_decision]
  · intro h
    subst h
    rcases AI_decision_two_valued r with hA | hD
    · exact Or.inl ⟨hA, by simp [final_decision, hA]⟩
    · exact Or.inr ⟨hD, by simp [final_decision, hD]⟩

/-- Witness for C2 at the concrete record `sampleDeny` with the override
set. -/
theorem final_decision_override_witness :
    (AI_decision sampleDeny = "approve" ∧ final_decision (AI_decision sampleDeny) true = "deny")
      ∨ (AI_decision sampleDeny = "deny" ∧ final_decision (AI_decision sampleDeny) true = "approve") :=
  (final_decision_override sampleDeny true).2 rfl

/-- C3: credibility_score, risk_score, integration_score and
state_protection_score all lie in [0,1]; risk_score_uncapped is exempt and
can exceed 1 or fall below 0, and risk_score is its clip to [0,1]. -/
theorem scores_bounded :
    (∀ b l e t, 0 ≤ credibility_score b l e t ∧ credibility_score b l e t ≤ 1)
    ∧ (∀ c p g nz, 0 ≤ risk_score c p g nz ∧ risk_score c p g nz ≤ 1)
    ∧ (∀ cr a u, 0 ≤ integration_score cr a u ∧ integration_score cr a u ≤ 1)
    ∧ (∀ d, 0 ≤ state_protection_score d ∧ state_protection_score d ≤ 1)
    ∧ (∀ c p g nz, risk_score c p g nz = np_clip (risk_score_uncapped c p g nz) 0.0 1.0)
    ∧ (∃ c p g nz, 1 < risk_score_uncapped c p g nz)
    ∧ (∃ c p g nz, risk_score_uncapped c p g nz < 0) := by
  refine ⟨fun b l e t => np_clip_mem01 _, fun c p g nz => np_clip_mem01 _,
    fun cr a u => np_clip_mem01 _, fun d => ?_, fun c p g nz => rfl, ?_, ?_⟩
  · unfold state_protection_score np_clip
    constructor
    · exact le_min (le_trans (by norm_num) (le_max_right d 0.05)) (by norm_num)
    · exact le_trans (min_le_right _ _) (by norm_num)
  · refine ⟨"Syria", "sexual_violence", "Female", 0, ?_⟩
    rw [show risk_score_uncapped "Syria" "sexual_violence" "Female" 0
        = 0.85 + 0.15 + 0.08 + 0 from rfl]
    norm_num
  · refine ⟨"Venezuela", "discrimination", "Male", -0.6, ?_⟩
    rw [show risk_score_uncapped "Venezuela" "discrimination" "Male" (-0.6)
        = 0.55 + -0.05 + 0.0 + -0.6 from rfl]
    norm_num

/-- C4: the trauma Bernoulli rate is 0.65 for the four high-conflict
countries and 0.40 otherwise, with +0.15 capped at 0.85 for the
sexual_violence and detention persecution types; in particular Syria with
sexual_violence gives min(0.65+0.15, 0.85) = 0.80. -/
theorem trauma_rate_rule (c p : String) :
    (p ∈ ["sexual_violence", "detention"] →
      trauma_base c p = min (trauma_base_country c + 0.15) 0.85)
    ∧ (p ∉ ["sexual_violence", "detention"] →
        ((c ∈ ["Syria", "Afghanistan", "Eritrea", "Somalia"] → trauma_base c p = 0.65)
          ∧ (c ∉ ["Syria", "Afghanistan", "Eritrea", "Somalia"] → trauma_base c p = 0.40)))
    ∧ trauma_base "Syria" "sexual_violence" = min (0.65 + 0.15) 0.85
    ∧ trauma_base "Syria" "sexual_violence" = 0.80 := by
  refine ⟨fun hp => ?_, fun hp => ⟨fun hc => ?_, fun hc => ?_⟩,
    by norm_num [trauma_base, trauma_base_country],
    by norm_num [trauma_base, trauma_base_country, min_def]⟩
  · simp [trauma_base, hp]
  · simp [trauma_base, trauma_base_country, hp, hc]
  · simp [trauma_base, trauma_base_country, hp, hc]

/-- Witness for C4 at Syria with sexual_violence (capped branch) and Sudan
with threats (base branch). -/
theorem trauma_rate_rule_witness :
    trauma_base "Syria" "sexual_violence" = min (trauma_base_country "Syria" + 0.15) 0.85
    ∧ trauma_base "Sudan" "threats" = 0.40
    ∧ trauma_base "Syria" "sexual_violence" = 0.80 :=
  ⟨(trauma_rate_rule "Syria" "sexual_violence").1 (by decide),
   ((trauma_rate_rule "Sudan" "threats").2.1 (by decide)).2 (by decide),
   (trauma_rate_rule "Syria" "sexual_violence").2.2.2⟩

/-- C5: for a negative record count the run fails at the first sampling
call with numpy's descriptive ValueError, producing no rows; for a
nonnegative count generation always succeeds, yielding exactly the
requested number of rows. -/
theorem generate_fail_fast (n : ℤ) (record_at : ℕ → Record) :
    (n < 0 → generate_rsd_dataset n record_at =
      Except.error "ValueError: negative dimensions are not allowed")
    ∧ (0 ≤ n → ∃ rows, generate_rsd_dataset n record_at = Except.ok rows
        ∧ rows.length = n.toNat) := by
  constructor
  · intro h
    simp [generate_rsd_dataset, h]
  · intro h
    refine ⟨(List.range n.toNat).map record_at, ?_, by simp⟩
    simp [generate_rsd_dataset, not_lt.mpr h]

/-- Witness for C5 at n = -1 (failure) and n = 0 (success with an empty
table). -/
theorem generate_fail_fast_witness :
    generate_rsd_dataset (-1) constRecord
        = Except.error "ValueError: negative dimensions are not allowed"
    ∧ generate_rsd_dataset 0 constRecord = Except.ok [] := by
  constructor
  · exact (generate_fail_fast (-1) constRecord).1 (by decide)
  · obtain ⟨rows, hrows, hlen⟩ := (generate_fail_fast 0 constRecord).2 (by decide)
    have h0 : rows = [] := List.length_eq_zero.mp (by simpa using hlen)
    rw [h0] at hrows
    exact hrows

/-- C6: exactly floor(0.10*N) records carry human_reviewed = true — the
drawn without-replacement index subset — and every record outside the drawn
subset carries human_reviewed = false. -/
theorem human_reviewed_exact_count (n : ℕ) (reviewed_idx : Finset ℕ)
    (hsub : reviewed_idx ⊆ Finset.range n)
    (hcard : reviewed_idx.card = review_size n) :
    reviewed_count n reviewed_idx = review_size n
    ∧ ∀ i, i ∉ reviewed_idx → human_reviewed reviewed_idx i = false := by
  constructor
  · have hfe : (Finset.range n).filter (fun i => human_reviewed reviewed_idx i = true)
        = reviewed_idx := by
      ext i
      simp only [Finset.mem_filter, human_reviewed, decide_eq_true_eq]
      exact ⟨fun h => h.2, fun h => ⟨hsub h, h⟩⟩
    unfold reviewed_count
    rw [hfe, hcard]
  · intro i hi
    simp [human_reviewed, hi]

/-- Witness for C6 with N = 20 and the drawn subset of the first
floor(0.10*20) = 2 indices. -/
theorem human_reviewed_exact_count_witness :
    reviewed_count 20 (Finset.range 2) = review_size 20
    ∧ human_reviewed (Finset.range 2) 7 = false := by
  have hsize : review_size 20 = 2 := by
    unfold review_size
    rw [show ((0.10 : ℚ) * (20 : ℕ)) = ((2 : ℤ) : ℚ) by norm_num, Int.floor_intCast]
    rfl
  have h := human_reviewed_exact_count 20 (Finset.range 2)
      (Finset.range_subset.mpr (by norm_num)) (by rw [Finset.card_range, hsize])
  exact ⟨h.1, h.2 7 (by decide)⟩

/-- C7: appeal_outcome = "N/A" iff the record was not appealed; an appealed
record gets "overturned" or "upheld", never "N/A". -/
theorem appeal_outcome_na_iff (appealed : Bool) (u : ℚ) :
    (appeal_outcome appealed u = "N/A" ↔ appealed = false)
    ∧ (appealed = true →
        appeal_outcome appealed u = "overturned" ∨ appeal_outcome appealed u = "upheld") := by
  have htrue : appeal_outcome true u = if u < 0.40 then "overturned" else "upheld" := rfl
  cases appealed
  · exact ⟨⟨fun _ => rfl, fun _ => rfl⟩, fun h => nomatch h⟩
  · constructor
    · rw [htrue]
      constructor
      · intro h
        by_cases hu : u < 0.40
        · rw [if_pos hu] at h
          exact absurd h (by decide)
        · rw [if_neg hu] at h
          exact absurd h (by decide)
      · intro h
        exact nomatch h
    · intro _
      rw [htrue]
      by_cases hu : u < 0.40
      · exact Or.inl (by rw [if_pos hu])
      · exact Or.inr (by rw [if_neg hu])

/-- Witness for C7 at an appealed record with draw 0.1. -/
theorem appeal_outcome_na_iff_witness :
    appeal_outcome true 0.1 = "overturned" ∨ appeal_outcome true 0.1 = "upheld" :=
  (appeal_outcome_na_iff true 0.1).2 rfl

/-- C8: a record with human_override = true necessarily has
human_reviewed = true — only rows in the review subset can be overridden. -/
theorem override_implies_reviewed (reviewed_idx : Finset ℕ) (flip_u : ℕ → ℚ) (i : ℕ)
    (h : human_override reviewed_idx flip_u i = true) :
    human_reviewed reviewed_idx i = true := by
  unfold human_override at h
  exact ((Bool.and_eq_true _ _).mp h).1

/-- Witness for C8: row 0 lies in the drawn subset and its flip draw is
below 0.50, so it is overridden, hence reviewed. -/
theorem override_implies_reviewed_witness :
    human_reviewed (Finset.range 2) 0 = true :=
  override_implies_reviewed (Finset.range 2) zero_draws 0
    (by norm_num [human_override, human_reviewed, zero_draws])

/-- C9: the bias-flag weight set is chosen by the first matching condition:
trauma with credibility below 0.5 gives [0.40, 0.40, 0.20]; otherwise
established nexus with a final denial gives [0.50, 0.35, 0.15]; otherwise
[0.80, 0.15, 0.05]. A record matching the first condition never uses the
later weight sets. -/
theorem bias_probs_priority (t : Bool) (c : ℚ) (nx : Bool) (fd : String) :
    (t = true ∧ c < 0.5 → bias_probs t c nx fd = (0.40, 0.40, 0.20))
    ∧ (¬(t = true ∧ c < 0.5) → (nx = true ∧ fd = "deny") →
        bias_probs t c nx fd = (0.50, 0.35, 0.15))
    ∧ (¬(t = true ∧ c < 0.5) → ¬(nx = true ∧ fd = "deny") →
        bias_probs t c nx fd = (0.80, 0.15, 0.05)) := by
  refine ⟨fun h => ?_, fun h1 h2 => ?_, fun h1 h2 => ?_⟩
  · unfold bias_probs
    rw [if_pos h]
  · unfold bias_probs
    rw [if_neg h1, if_pos h2]
  · unfold bias_probs
    rw [if_neg h1, if_neg h2]

/-- Witness for C9: the first input satisfies conditions 1 and 2
simultaneously and still receives the first weight set (priority); the
others exercise the second and third branches. -/
theorem bias_probs_priority_witness :
    bias_probs true 0.3 true "deny" = (0.40, 0.40, 0.20)
    ∧ bias_probs false 0.3 true "deny" = (0.50, 0.35, 0.15)
    ∧ bias_probs false 0.9 false "deny" = (0.80, 0.15, 0.05) :=
  ⟨(bias_probs_priority true 0.3 true "deny").1 ⟨rfl, by norm_num⟩,
   (bias_probs_priority false 0.3 true "deny").2.1 (by simp) ⟨rfl, rfl⟩,
   (bias_probs_priority false 0.9 false "deny").2.2 (by simp) (by simp)⟩

/-- C10: AI_decision depends only on risk_score, credibility_score,
nexus_established and state_protection_score — two records agreeing on
those four fields get the same decision, whatever their other attributes
(in particular internal_relocation_possible and integration_score never
influence it). -/
theorem AI_decision_noninterference (r1 r2 : Record)
    (hrisk : r1.risk_score = r2.risk_score)
    (hcred : r1.credibility_score = r2.credibility_score)
    (hnexus : r1.nexus_established = r2.nexus_established)
    (hsp : r1.state_protection_score = r2.state_protection_score) :
    AI_decision r1 = AI_decision r2 := by
  unfold AI_decision approve_score
  rw [hrisk, hcred, hnexus, hsp]

/-- Witness for C10 at two concrete records agreeing exactly on the four
decision inputs and differing in every other attribute. -/
theorem AI_decision_noninterference_witness :
    AI_decision sampleApprove = AI_decision sampleApprove2 :=
  AI_decision_noninterference sampleApprove sampleApprove2 rfl rfl rfl rfl
